import Mathlib

/-!
Shallow embedding of `examples/btrx.py` (gr-bluetooth's Bluetooth monitoring
utility, class `my_top_block.__init__`).

Conventions of the embedding:
* Python floats are modelled as exact rationals (`ℚ`); the quantities the
  script manipulates (ADC rates, decimation quotients, samples per symbol)
  are stated by the spec in exact arithmetic.
* Python `int(x)` applied to a float truncates toward zero (`pyTrunc`).
* Python `int(s, 16)` and `float(s)` are modelled as `Option`-valued
  parsers; `None` stands for the `ValueError` they raise on malformed input.
* The constructor `my_top_block.__init__` is modelled by `btrxInit`, a pure
  function from the parsed option record (and the hardware environment:
  whether tuning succeeds) to the ordered list of pipeline-construction
  events it performs together with either the list of connected channel
  branches or the exception it raises.  Command-line parsing itself
  (`OptionParser`, lines 23-57) is outside the embedding: `Options` starts
  from the already-parsed values with the script's declared defaults.
* Hardware side effects that neither fail nor influence later control flow
  (subdevice selection, gain defaulting, the printed board name) are not
  given events; the USRP tuning failure path is kept because it raises.
-/

/-- The parsed command-line options of btrx.py (lines 25-52), with the
script's declared defaults.  `sample_rate = none` means the user supplied no
explicit rate; `lap`/`uap` are kept as raw strings because the script parses
them lazily, only on the branches that use them. -/
structure Options where
  nsamples : Option ℚ := none
  ddc : String := "0"
  decim : Int := 32
  freq : ℚ := 0
  gain : Option ℚ := none
  input_file : Option String := none
  lap : Option String := none
  dump : Bool := false
  sample_rate : Option ℚ := none
  input_shorts : Bool := false
  packets : Int := 100
  uap : Option String := none
  usrp2 : Bool := false
deriving DecidableEq

/-- Bluetooth operates at 1 million symbols per second (line 60). -/
def symbol_rate : ℚ := 1000000

/-- The demodulator needs at least two samples per symbol (line 63). -/
def min_samples_per_symbol : ℚ := 2

/-- Minimum acceptable sample rate (line 64). -/
def min_sample_rate : ℚ := symbol_rate * min_samples_per_symbol

/-- Python `int()` on a float: truncation toward zero. -/
def pyTrunc (q : ℚ) : Int := if q < 0 then -Int.floor (-q) else Int.floor q

/-- Lines 67-74: use `options.sample_rate` unless not provided by the user,
in which case derive it from the assumed ADC rate (100 MHz for USRP2,
64 MHz for USRP) divided by the decimation factor. -/
def resolveSampleRate (opts : Options) : ℚ :=
  match opts.sample_rate with
  | some r => r
  | none =>
    let adc_rate : ℚ := if opts.usrp2 then 100000000 else 64000000
    adc_rate / (opts.decim : ℚ)

/-- Value of a hexadecimal digit, if the character is one. -/
def hexDigitVal (c : Char) : Option Nat :=
  if '0' ≤ c ∧ c ≤ '9' then some (c.toNat - '0'.toNat)
  else if 'a' ≤ c ∧ c ≤ 'f' then some (c.toNat - 'a'.toNat + 10)
  else if 'A' ≤ c ∧ c ≤ 'F' then some (c.toNat - 'A'.toNat + 10)
  else none

/-- Accumulate a list of hex digits into a number; `none` if any character
is not a hex digit. -/
def hexDigitsVal : List Char → Option Nat
  | [] => some 0
  | c :: cs =>
    match hexDigitVal c, hexDigitsVal cs with
    | some d, some n => some (d * 16 ^ cs.length + n)
    | _, _ => none

/-- Strip leading and trailing spaces from a character list. -/
def stripSpaces (cs : List Char) : List Char :=
  ((cs.dropWhile (· = ' ')).reverse.dropWhile (· = ' ')).reverse

/-- Python `int(s, 16)`: optional surrounding spaces, optional sign,
optional 0x/0X prefix, then at least one hexadecimal digit.  `none` models
the `ValueError` raised on anything else. -/
def pyIntHex (s : String) : Option Int :=
  let cs := stripSpaces s.toList
  let (sign, cs1) : Int × List Char :=
    match cs with
    | '-' :: t => (-1, t)
    | '+' :: t => (1, t)
    | _ => (1, cs)
  let cs2 :=
    match cs1 with
    | '0' :: x :: t => if x = 'x' ∨ x = 'X' then t else cs1
    | _ => cs1
  if cs2.isEmpty then none
  else (hexDigitsVal cs2).map (fun n => sign * (n : Int))

/-- Accumulate decimal digits; `none` if any character is not a digit. -/
def decDigitsVal : List Char → Option Nat
  | [] => some 0
  | c :: cs =>
    if c.isDigit then
      (decDigitsVal cs).map (fun n => (c.toNat - '0'.toNat) * 10 ^ cs.length + n)
    else none

/-- Python `float(s)` restricted to what btrx.py can meet: optional spaces,
optional sign, digits with an optional fractional part (at least one digit
overall), and an optional decimal exponent.  `none` models `ValueError`. -/
def pyFloat (s : String) : Option ℚ :=
  let cs := stripSpaces s.toList
  let (sign, cs1) : ℚ × List Char :=
    match cs with
    | '-' :: t => (-1, t)
    | '+' :: t => (1, t)
    | _ => (1, cs)
  let (ip, cs2) := cs1.span Char.isDigit
  let (fp, cs3) :=
    match cs2 with
    | '.' :: t => t.span Char.isDigit
    | _ => (([] : List Char), cs2)
  if ip.isEmpty ∧ fp.isEmpty then none
  else
    match decDigitsVal ip, decDigitsVal fp with
    | some i, some f =>
      let mant : ℚ := sign * ((i : ℚ) + (f : ℚ) / (10 : ℚ) ^ fp.length)
      match cs3 with
      | [] => some mant
      | e :: t =>
        if e = 'e' ∨ e = 'E' then
          let (esign, t1) : Int × List Char :=
            match t with
            | '-' :: t2 => (-1, t2)
            | '+' :: t2 => (1, t2)
            | _ => (1, t)
          if t1.isEmpty then none
          else
            match decDigitsVal t1 with
            | some ev =>
              if t1.all Char.isDigit then some (mant * (10 : ℚ) ^ (esign * (ev : Int)))
              else none
            | none => none
        else none
    | _, _ => none

/-- SI suffix scale factors of gnuradio's eng_notation module (an external
library dependency of btrx.py, modelled from its documented behaviour). -/
def scale_factor (c : Char) : Option ℚ :=
  if c = 'E' then some ((10 : ℚ) ^ (18 : ℕ))
  else if c = 'P' then some ((10 : ℚ) ^ (15 : ℕ))
  else if c = 'T' then some ((10 : ℚ) ^ (12 : ℕ))
  else if c = 'G' then some ((10 : ℚ) ^ (9 : ℕ))
  else if c = 'M' then some ((10 : ℚ) ^ (6 : ℕ))
  else if c = 'k' then some ((10 : ℚ) ^ (3 : ℕ))
  else if c = 'm' then some (1 / (10 : ℚ) ^ (3 : ℕ))
  else if c = 'u' then some (1 / (10 : ℚ) ^ (6 : ℕ))
  else if c = 'n' then some (1 / (10 : ℚ) ^ (9 : ℕ))
  else if c = 'p' then some (1 / (10 : ℚ) ^ (12 : ℕ))
  else if c = 'f' then some (1 / (10 : ℚ) ^ (15 : ℕ))
  else if c = 'a' then some (1 / (10 : ℚ) ^ (18 : ℕ))
  else none

/-- gnuradio's `eng_notation.str_to_num` (external library dependency of
btrx.py, line 137): if the last character is a known SI suffix, parse the
rest as a float and scale; otherwise parse the whole string as a float.
`none` models the `RuntimeError` it raises on invalid input (including the
empty string, where indexing `value[-1]` already fails). -/
def str_to_num (value : String) : Option ℚ :=
  match value.toList.getLast? with
  | none => none
  | some suffix =>
    match scale_factor suffix with
    | some scale => (pyFloat (value.dropRight 1)).map (· * scale)
    | none => pyFloat value

/-- The exceptions `my_top_block.__init__` can raise, by raise site. -/
inductive InitError
  /-- ValueError of line 78: sample rate below minimum, with the computed
  and required values. -/
  | sampleRateLow (computed required : ℚ)
  /-- NotImplementedError of line 90: hardware source requested with the
  USRP2 flag. -/
  | notImplemented
  /-- SystemExit of line 97: failed to set USRP frequency. -/
  | tuneFailed
  /-- RuntimeError from eng_notation.str_to_num at line 137: malformed
  entry in the ddc frequency list. -/
  | invalidEngValue (entry : String)
  /-- ValueError from `int(s, 16)` at line 161 or 164: malformed lap or
  uap hex string. -/
  | invalidHex (s : String)
deriving DecidableEq

/-- The immutable signal-processing parameters derived once at startup:
the resolved sample rate (lines 67-74) and the derived channel decimation
rate and samples-per-symbol (lines 130-131). -/
structure ResolvedConfig where
  sampleRate : ℚ
  decimation_rate : Int
  samples_per_symbol : ℚ
deriving DecidableEq

/-- ParameterResolver: lines 59-78 and 130-131.  Resolve the sample rate,
reject it if below the minimum (line 77-78), and otherwise derive
`decimation_rate = int(sample_rate / min_sample_rate)` and
`samples_per_symbol = (sample_rate / decimation_rate) / symbol_rate`. -/
def resolveParams (opts : Options) : Except InitError ResolvedConfig :=
  let sampleRate := resolveSampleRate opts
  if sampleRate < min_sample_rate then
    .error (.sampleRateLow sampleRate min_sample_rate)
  else
    let decimation_rate := pyTrunc (sampleRate / min_sample_rate)
    .ok { sampleRate := sampleRate
          decimation_rate := decimation_rate
          samples_per_symbol := (sampleRate / (decimation_rate : ℚ)) / symbol_rate }

/-- The bluetooth decoding destination chosen at lines 150-164, a tagged
variant: dump mode, LAP discovery (carrying the branch's ddc frequency),
UAP discovery (carrying the parsed lap and the packet budget), or the
sniffer (carrying the parsed lap and uap). -/
inductive Mode
  | dump
  | lap (ddc_freq : Int)
  | uap (lap : Int) (packets : Int)
  | sniffer (lap : Int) (uap : Int)
deriving DecidableEq

/-- Lines 150-164: select the bluetooth decoding block for one channel
branch.  `dump` is checked first; otherwise a missing lap selects LAP
discovery; otherwise a missing uap selects UAP discovery, parsing the lap
as hex; otherwise the sniffer, parsing lap then uap as hex.  Parse
failures model the ValueError that `int(s, 16)` raises. -/
def selectDst (opts : Options) (ddc_freq : Int) : Except InitError Mode :=
  if opts.dump then .ok .dump
  else
    match opts.lap with
    | none => .ok (.lap ddc_freq)
    | some lapStr =>
      match opts.uap with
      | none =>
        match pyIntHex lapStr with
        | none => .error (.invalidHex lapStr)
        | some l => .ok (.uap l opts.packets)
      | some uapStr =>
        match pyIntHex lapStr with
        | none => .error (.invalidHex lapStr)
        | some l =>
          match pyIntHex uapStr with
          | none => .error (.invalidHex uapStr)
          | some u => .ok (.sniffer l u)

/-- One connected channel branch (one iteration of the loop at lines
136-167): the parsed ddc frequency, the decimation rate and
samples-per-symbol shared from the resolved configuration, and the
selected decoding destination. -/
structure Branch where
  ddc_freq : Int
  decimation_rate : Int
  samples_per_symbol : ℚ
  dst : Mode
deriving DecidableEq

/-- Which input source line 86-108 selects. -/
inductive SourceKind
  | usrpSrc
  | stdinSrc
  | fileSrc (name : String)
deriving DecidableEq

/-- Pipeline-construction events of `__init__`, in the order the script
performs them. -/
inductive Event
  /-- The source adapter is created (lines 92, 105 or 108). -/
  | srcCreated (k : SourceKind)
  /-- The gr.head sample limiter is created and connected (lines 114-115). -/
  | headCreated
  /-- The short-to-complex converter is created and connected (lines
  120-121). -/
  | s2cCreated
  /-- One channel branch is connected (line 167) with the given parsed ddc
  frequency. -/
  | branchConnected (ddc_freq : Int)
deriving DecidableEq

/-- The hardware environment btrx.py runs against: whether
`src.tune(0, subdev, options.freq)` (line 95) succeeds. -/
structure HwEnv where
  tuneOk : Bool := true
deriving DecidableEq

/-- The per-channel loop of lines 136-167: for each comma-separated entry
of `options.ddc`, parse it with `eng_notation.str_to_num` and truncate to
an int, select the decoding destination, and connect the branch.  Returns
the branch-connection events performed before termination and either the
connected branches or the first exception raised. -/
def buildLoop (opts : Options) (cfg : ResolvedConfig) :
    List String → List Event × Except InitError (List Branch)
  | [] => ([], .ok [])
  | entry :: rest =>
    match str_to_num entry with
    | none => ([], .error (.invalidEngValue entry))
    | some v =>
      match selectDst opts (pyTrunc v) with
      | .error e => ([], .error e)
      | .ok m =>
        (Event.branchConnected (pyTrunc v) :: (buildLoop opts cfg rest).1,
         (buildLoop opts cfg rest).2.map (fun bs =>
           { ddc_freq := pyTrunc v
             decimation_rate := cfg.decimation_rate
             samples_per_symbol := cfg.samples_per_symbol
             dst := m } :: bs))

/-- Lines 110-124 and 136-167, after a source has been created: insert the
gr.head stage if a sample count was requested, insert the short-to-complex
stage if the input is shorts, then run the per-channel loop. -/
def afterSource (opts : Options) (cfg : ResolvedConfig) (srcEvents : List Event) :
    List Event × Except InitError (List Branch) :=
  ((srcEvents ++ (if opts.nsamples.isSome then [Event.headCreated] else []) ++
      (if opts.input_shorts then [Event.s2cCreated] else [])) ++
    (buildLoop opts cfg (opts.ddc.splitOn ",")).1,
   (buildLoop opts cfg (opts.ddc.splitOn ",")).2)

/-- `my_top_block.__init__` from line 59 on: resolve and validate the
signal-processing parameters, select and create the input source (hardware
when no input file is given — not implemented for USRP2, and failing if
tuning fails — stdin for the file name "-", a file source otherwise), then
build the stages and the channel branches.  Returns the ordered
construction events together with either the connected branches or the
exception raised. -/
def btrxInit (opts : Options) (env : HwEnv) :
    List Event × Except InitError (List Branch) :=
  match resolveParams opts with
  | .error e => ([], .error e)
  | .ok cfg =>
    match opts.input_file with
    | none =>
      if opts.usrp2 then ([], .error .notImplemented)
      else if env.tuneOk then afterSource opts cfg [.srcCreated .usrpSrc]
      else ([.srcCreated .usrpSrc], .error .tuneFailed)
    | some f =>
      if f = "-" then afterSource opts cfg [.srcCreated .stdinSrc]
      else afterSource opts cfg [.srcCreated (.fileSrc f)]

/-! ### Basic facts about the embedded definitions -/

instance {ε α : Type} [DecidableEq ε] [DecidableEq α] : DecidableEq (Except ε α)
  | .ok a, .ok b =>
    if h : a = b then .isTrue (by rw [h]) else .isFalse (by simp [h])
  | .ok _, .error _ => .isFalse (by simp)
  | .error _, .ok _ => .isFalse (by simp)
  | .error a, .error b =>
    if h : a = b then .isTrue (by rw [h]) else .isFalse (by simp [h])

lemma min_sample_rate_eq : min_sample_rate = 2000000 := by
  norm_num [min_sample_rate, symbol_rate, min_samples_per_symbol]

lemma symbol_rate_eq : symbol_rate = 1000000 := rfl

lemma pyTrunc_of_nonneg {q : ℚ} (h : 0 ≤ q) : pyTrunc q = ⌊q⌋ := by
  rw [pyTrunc, if_neg (not_lt.mpr h)]

/-- Shape of the ParameterResolver output on the accepting path. -/
lemma resolveParams_of_not_lt {opts : Options}
    (h : ¬ resolveSampleRate opts < min_sample_rate) :
    resolveParams opts =
      .ok { sampleRate := resolveSampleRate opts
            decimation_rate := pyTrunc (resolveSampleRate opts / min_sample_rate)
            samples_per_symbol :=
              (resolveSampleRate opts /
                  ((pyTrunc (resolveSampleRate opts / min_sample_rate) : ℤ) : ℚ)) /
                symbol_rate } := by
  unfold resolveParams
  rw [if_neg h]

/-- Shape of the ParameterResolver output on the rejecting path. -/
lemma resolveParams_of_lt {opts : Options}
    (h : resolveSampleRate opts < min_sample_rate) :
    resolveParams opts =
      .error (.sampleRateLow (resolveSampleRate opts) min_sample_rate) := by
  unfold resolveParams
  rw [if_pos h]

/-- The only exception the ParameterResolver raises is the low-sample-rate
ValueError. -/
lemma resolveParams_error_shape {opts : Options} {e : InitError}
    (h : resolveParams opts = .error e) :
    e = .sampleRateLow (resolveSampleRate opts) min_sample_rate := by
  by_cases hlt : resolveSampleRate opts < min_sample_rate
  · rw [resolveParams_of_lt hlt] at h
    exact (Except.error.inj h).symm
  · rw [resolveParams_of_not_lt hlt] at h
    exact absurd h (by simp)

/-- Inversion for a successful ParameterResolver run. -/
lemma resolveParams_ok_inv {opts : Options} {cfg : ResolvedConfig}
    (h : resolveParams opts = .ok cfg) :
    ¬ resolveSampleRate opts < min_sample_rate ∧
    cfg.sampleRate = resolveSampleRate opts ∧
    cfg.decimation_rate = pyTrunc (resolveSampleRate opts / min_sample_rate) ∧
    cfg.samples_per_symbol =
      (resolveSampleRate opts / ((cfg.decimation_rate : ℤ) : ℚ)) / symbol_rate := by
  by_cases hlt : resolveSampleRate opts < min_sample_rate
  · rw [resolveParams_of_lt hlt] at h
    exact absurd h (by simp)
  · rw [resolveParams_of_not_lt hlt] at h
    obtain rfl := (Except.ok.inj h).symm
    exact ⟨hlt, rfl, rfl, rfl⟩

/-- When dump mode is requested, the destination is dump regardless of the
lap and uap strings and of the branch frequency. -/
lemma selectDst_of_dump {opts : Options} (h : opts.dump = true) (f : Int) :
    selectDst opts f = .ok .dump := by
  unfold selectDst
  rw [if_pos h]

/-- A failing destination selection can only happen with dump unset and a
lap string supplied. -/
lemma selectDst_error_inv {opts : Options} {f : Int} {e : InitError}
    (h : selectDst opts f = .error e) :
    opts.dump = false ∧ ∃ t, opts.lap = some t := by
  unfold selectDst at h
  by_cases hd : opts.dump = true
  · rw [if_pos hd] at h
    exact absurd h (by simp)
  · refine ⟨by simpa using hd, ?_⟩
    rw [if_neg hd] at h
    rcases hl : opts.lap with _ | s
    · rw [hl] at h
      exact absurd h (by simp)
    · exact ⟨s, rfl⟩

/-- Whether destination selection succeeds does not depend on the branch
frequency. -/
lemma selectDst_error_irrel {opts : Options} {f : Int} {e : InitError}
    (h : selectDst opts f = .error e) (g : Int) :
    selectDst opts g = .error e := by
  unfold selectDst at h ⊢
  by_cases hd : opts.dump = true
  · rw [if_pos hd] at h
    exact absurd h (by simp)
  · rw [if_neg hd] at h ⊢
    rcases hl : opts.lap with _ | s
    · rw [hl] at h
      exact absurd h (by simp)
    · rw [hl] at h
      exact h

/-- A successful loop run connects one branch per entry, in order, at the
truncated parsed frequency of each entry. -/
lemma buildLoop_ok_of_parses (opts : Options) (cfg : ResolvedConfig)
    (hm : ∀ f : Int, ∃ m, selectDst opts f = .ok m) :
    ∀ entries : List String,
      (∀ e ∈ entries, (str_to_num e).isSome = true) →
      ∃ bs, buildLoop opts cfg entries =
          (entries.map (fun e => Event.branchConnected (pyTrunc ((str_to_num e).getD 0))),
           .ok bs) ∧
        bs.map Branch.ddc_freq =
          entries.map (fun e => pyTrunc ((str_to_num e).getD 0)) := by
  intro entries
  induction entries with
  | nil => exact fun _ => ⟨[], rfl, rfl⟩
  | cons entry rest ih =>
    intro hall
    have h1 : (str_to_num entry).isSome = true := hall entry (by simp)
    rcases hv : str_to_num entry with _ | v
    · rw [hv] at h1
      exact absurd h1 (by simp)
    · obtain ⟨m, hm1⟩ := hm (pyTrunc v)
      obtain ⟨bs, hb1, hb2⟩ := ih (fun e he => hall e (by simp [he]))
      refine ⟨{ ddc_freq := pyTrunc v
                decimation_rate := cfg.decimation_rate
                samples_per_symbol := cfg.samples_per_symbol
                dst := m } :: bs, ?_, ?_⟩
      · simp [buildLoop, hv, hm1, hb1, Except.map]
      · simp [hb2, hv]

/-- An error raised inside the loop is either a malformed-entry error or a
destination-selection error at some frequency. -/
lemma buildLoop_error_inv (opts : Options) (cfg : ResolvedConfig) :
    ∀ entries : List String, ∀ e : InitError,
      (buildLoop opts cfg entries).2 = .error e →
      (∃ s, e = .invalidEngValue s) ∨ ∃ f, selectDst opts f = .error e := by
  intro entries
  induction entries with
  | nil => intro e h; exact absurd h (by simp [buildLoop])
  | cons entry rest ih =>
    intro e h
    rcases hv : str_to_num entry with _ | v
    · simp only [buildLoop, hv] at h
      exact .inl ⟨entry, (Except.error.inj h).symm⟩
    · rcases hm : selectDst opts (pyTrunc v) with e1 | m
      · simp only [buildLoop, hv, hm] at h
        obtain rfl := (Except.error.inj h)
        exact .inr ⟨pyTrunc v, hm⟩
      · simp only [buildLoop, hv, hm] at h
        rcases hb : (buildLoop opts cfg rest).2 with e2 | bs
        · rw [hb] at h
          obtain rfl := (Except.error.inj h)
          exact ih e2 hb
        · rw [hb] at h
          exact absurd h (by simp [Except.map])

/-- Exhaustive description of an `__init__` run: it rejects the sample rate
before creating anything, rejects the USRP2 hardware source before creating
anything, fails tuning right after creating the USRP source, or creates a
source first and proceeds into stage and branch construction. -/
lemma btrxInit_run_cases (opts : Options) (env : HwEnv) :
    (∃ c r, btrxInit opts env = ([], .error (.sampleRateLow c r)))
    ∨ btrxInit opts env = ([], .error .notImplemented)
    ∨ btrxInit opts env = ([.srcCreated .usrpSrc], .error .tuneFailed)
    ∨ ∃ k cfg, resolveParams opts = .ok cfg ∧
        btrxInit opts env =
          (Event.srcCreated k ::
            ((if opts.nsamples.isSome then [Event.headCreated] else []) ++
              ((if opts.input_shorts then [Event.s2cCreated] else []) ++
                (buildLoop opts cfg (opts.ddc.splitOn ",")).1)),
           (buildLoop opts cfg (opts.ddc.splitOn ",")).2) := by
  rcases hrp : resolveParams opts with e | cfg
  · obtain rfl := resolveParams_error_shape hrp
    exact .inl ⟨resolveSampleRate opts, min_sample_rate, by simp [btrxInit, hrp]⟩
  · rcases hif : opts.input_file with _ | f
    · cases hu : opts.usrp2 with
      | true => exact .inr (.inl (by simp [btrxInit, hrp, hif, hu]))
      | false =>
        cases ht : env.tuneOk with
        | true =>
          refine .inr (.inr (.inr ⟨.usrpSrc, cfg, rfl, ?_⟩))
          simp [btrxInit, hrp, hif, hu, ht, afterSource]
        | false =>
          exact .inr (.inr (.inl (by simp [btrxInit, hrp, hif, hu, ht])))
    · by_cases hf : f = "-"
      · subst hf
        refine .inr (.inr (.inr ⟨.stdinSrc, cfg, rfl, ?_⟩))
        simp [btrxInit, hrp, hif, afterSource]
      · refine .inr (.inr (.inr ⟨.fileSrc f, cfg, rfl, ?_⟩))
        simp [btrxInit, hrp, hif, hf, afterSource]

/-- The loop consults the option record only through destination selection,
so two option records that both request dump mode drive it identically. -/
lemma buildLoop_dump_irrel (o1 o2 : Options) (cfg : ResolvedConfig)
    (h1 : o1.dump = true) (h2 : o2.dump = true) :
    ∀ entries : List String, buildLoop o1 cfg entries = buildLoop o2 cfg entries := by
  intro entries
  induction entries with
  | nil => rfl
  | cons entry rest ih =>
    rcases hv : str_to_num entry with _ | v
    · simp [buildLoop, hv]
    · simp [buildLoop, hv, selectDst_of_dump h1, selectDst_of_dump h2, ih]

/-- In dump mode the whole constructor run ignores the lap and uap strings:
replacing them by anything gives the identical run. -/
lemma btrxInit_lap_uap_irrel (opts : Options) (env : HwEnv)
    (l u : Option String) (hd : opts.dump = true) :
    btrxInit { opts with lap := l, uap := u } env = btrxInit opts env := by
  rcases opts with ⟨ns, ddc0, dec, fr, g, inf, lap0, dmp, sr, ish, pk, uap0, u2⟩
  subst hd
  have hrp : resolveParams ⟨ns, ddc0, dec, fr, g, inf, l, true, sr, ish, pk, u, u2⟩ =
      resolveParams ⟨ns, ddc0, dec, fr, g, inf, lap0, true, sr, ish, pk, uap0, u2⟩ := rfl
  have hbl := buildLoop_dump_irrel
    ⟨ns, ddc0, dec, fr, g, inf, l, true, sr, ish, pk, u, u2⟩
    ⟨ns, ddc0, dec, fr, g, inf, lap0, true, sr, ish, pk, uap0, u2⟩
  unfold btrxInit
  rw [hrp]
  rcases resolveParams ⟨ns, ddc0, dec, fr, g, inf, lap0, true, sr, ish, pk, uap0, u2⟩ with e | cfg
  · rfl
  · rcases inf with _ | f
    · cases u2 with
      | true => rfl
      | false =>
        cases env.tuneOk with
        | true => simp [afterSource, hbl cfg rfl rfl]
        | false => rfl
    · by_cases hf : f = "-"
      · subst hf
        simp [afterSource, hbl cfg rfl rfl]
      · simp [afterSource, hf, hbl cfg rfl rfl]

/-! ### Claims -/

/-- C1: for every decimation factor > 0 and hardware variant, the resolved
sample rate equals the user-supplied rate when one is supplied, and
otherwise equals the assumed ADC rate (100 MHz when the USRP2 flag is set,
64 MHz otherwise) divided by the decimation factor; when an explicit rate
is supplied the result is that rate for every choice of the remaining
options, so the variant-based computation never takes part. -/
theorem C1_sample_rate_resolution :
    (∀ (opts : Options) (d : Int) (v : Bool),
        opts.sample_rate = none → opts.decim = d → opts.usrp2 = v → 0 < d →
        resolveSampleRate opts = (if v then (100000000 : ℚ) else 64000000) / (d : ℚ))
    ∧ (∀ (opts : Options) (r : ℚ),
        resolveSampleRate { opts with sample_rate := some r } = r) := by
  constructor
  · intro opts d v h1 h2 h3 _
    subst h2
    subst h3
    simp [resolveSampleRate, h1]
  · intro opts r
    rfl

/-- Witness for C1 at concrete inputs: the USRP2 default-decimation rate is
100 MHz / 32, and an explicit rate wins over variant and decimation. -/
theorem C1_witness :
    resolveSampleRate { usrp2 := true } = 3125000 ∧
    resolveSampleRate { sample_rate := some 42, decim := 7, usrp2 := true } = 42 := by
  constructor
  · rw [C1_sample_rate_resolution.1 { usrp2 := true } 32 true rfl rfl rfl (by decide)]
    with_unfolding_all rfl
  · exact C1_sample_rate_resolution.2 { decim := 7, usrp2 := true } 42

/-- C2: parameter resolution raises the low-sample-rate ValueError exactly
when the resolved sample rate is strictly below 2,000,000 Hz, and when it
does the constructor run terminates with an empty construction trace (the
error precedes all stream-processing setup); for every resolved rate at or
above 2,000,000 Hz resolution succeeds. -/
theorem C2_parameter_validation :
    (∀ opts : Options, resolveSampleRate opts < 2000000 →
        resolveParams opts = .error (.sampleRateLow (resolveSampleRate opts) 2000000))
    ∧ (∀ opts : Options, 2000000 ≤ resolveSampleRate opts →
        ∃ cfg, resolveParams opts = .ok cfg)
    ∧ (∀ (opts : Options) (env : HwEnv), resolveSampleRate opts < 2000000 →
        btrxInit opts env = ([], .error (.sampleRateLow (resolveSampleRate opts) 2000000))) := by
  refine ⟨?_, ?_, ?_⟩
  · intro opts h
    rw [resolveParams_of_lt (by rw [min_sample_rate_eq]; exact h), min_sample_rate_eq]
  · intro opts h
    exact ⟨_, resolveParams_of_not_lt (by rw [min_sample_rate_eq]; exact not_lt.mpr h)⟩
  · intro opts env h
    have h2 := @resolveParams_of_lt opts (by rw [min_sample_rate_eq]; exact h)
    simp [btrxInit, h2, min_sample_rate_eq]

/-- Witness for C2: 1 Msps is rejected (with an empty trace for the full
run), 2 Msps is accepted. -/
theorem C2_witness :
    resolveParams { sample_rate := some 1000000 } =
      .error (.sampleRateLow 1000000 2000000) ∧
    (∃ cfg, resolveParams { sample_rate := some 2000000 } = .ok cfg) ∧
    btrxInit { sample_rate := some 1000000, input_file := some "-" } { } =
      ([], .error (.sampleRateLow 1000000 2000000)) := by
  refine ⟨?_, ?_, ?_⟩
  · exact C2_parameter_validation.1 { sample_rate := some 1000000 }
      (by with_unfolding_all decide)
  · exact C2_parameter_validation.2.1 { sample_rate := some 2000000 }
      (by with_unfolding_all decide)
  · exact C2_parameter_validation.2.2 { sample_rate := some 1000000, input_file := some "-" }
      { } (by with_unfolding_all decide)

/-- C3: the decoding destination is selected by one decision table applied
uniformly at every branch frequency: dump wins whenever set; otherwise no
lap gives LAP discovery at the branch frequency; otherwise no uap gives UAP
discovery with the parsed lap and the packet budget; otherwise the sniffer
with the parsed lap and uap. -/
theorem C3_mode_selection :
    (∀ (opts : Options) (f : Int), opts.dump = true → selectDst opts f = .ok .dump)
    ∧ (∀ (opts : Options) (f : Int), opts.dump = false → opts.lap = none →
        selectDst opts f = .ok (.lap f))
    ∧ (∀ (opts : Options) (f : Int) (s : String) (l : Int),
        opts.dump = false → opts.lap = some s → opts.uap = none → pyIntHex s = some l →
        selectDst opts f = .ok (.uap l opts.packets))
    ∧ (∀ (opts : Options) (f : Int) (s t : String) (l u : Int),
        opts.dump = false → opts.lap = some s → opts.uap = some t →
        pyIntHex s = some l → pyIntHex t = some u →
        selectDst opts f = .ok (.sniffer l u)) := by
  refine ⟨?_, ?_, ?_, ?_⟩
  · intro opts f h
    exact selectDst_of_dump h f
  · intro opts f hd hl
    simp [selectDst, hd, hl]
  · intro opts f s l hd hl hu hp
    simp [selectDst, hd, hl, hu, hp]
  · intro opts f s t l u hd hl hu hp hq
    simp [selectDst, hd, hl, hu, hp, hq]

/-- Witness for C3: the four rows of the decision table at concrete
inputs (lap 9e8b33 parses to 10390323, uap 01 to 1). -/
theorem C3_witness :
    selectDst { dump := true, lap := some "zz" } 5 = .ok .dump ∧
    selectDst { } 7 = .ok (.lap 7) ∧
    selectDst { lap := some "9e8b33" } 3 = .ok (.uap 10390323 100) ∧
    selectDst { lap := some "9e8b33", uap := some "01" } 3 = .ok (.sniffer 10390323 1) := by
  refine ⟨?_, ?_, ?_, ?_⟩
  · exact C3_mode_selection.1 _ 5 rfl
  · exact C3_mode_selection.2.1 _ 7 rfl rfl
  · exact C3_mode_selection.2.2.1 _ 3 "9e8b33" 10390323 rfl rfl rfl (by decide)
  · exact C3_mode_selection.2.2.2 _ 3 "9e8b33" "01" 10390323 1 rfl rfl rfl
      (by decide) (by decide)

/-- C10: a hex-parse ValueError can only be raised when dump is unset and a
lap string was supplied, and with the dump flag set the entire constructor
run is unchanged under arbitrary replacement of the lap and uap strings —
they are never parsed or inspected. -/
theorem C10_dump_skips_hex_parsing :
    (∀ (opts : Options) (env : HwEnv) (s : String),
        (btrxInit opts env).2 = .error (.invalidHex s) →
        opts.dump = false ∧ ∃ t, opts.lap = some t)
    ∧ (∀ (opts : Options) (env : HwEnv) (l u : Option String),
        opts.dump = true →
        btrxInit { opts with lap := l, uap := u } env = btrxInit opts env) := by
  constructor
  · intro opts env s h
    rcases btrxInit_run_cases opts env with ⟨c, r, hc⟩ | hc | hc | ⟨k, cfg, hcfg, hc⟩
    · rw [hc] at h
      exact absurd h (by simp)
    · rw [hc] at h
      exact absurd h (by simp)
    · rw [hc] at h
      exact absurd h (by simp)
    · rw [hc] at h
      rcases buildLoop_error_inv opts cfg (opts.ddc.splitOn ",") _ h with ⟨e0, he⟩ | ⟨f, hf⟩
      · exact absurd he (by simp)
      · exact selectDst_error_inv hf
  · intro opts env l u hd
    exact btrxInit_lap_uap_irrel opts env l u hd

/-- Witness for C10: a malformed lap does raise the hex ValueError when
dump is unset (and its inversion names the supplied lap), while with dump
set the same malformed lap and uap leave the run untouched. -/
theorem C10_witness :
    (({ input_file := some "-", lap := some "zz", sample_rate := some 2000000 } : Options).dump
        = false ∧
      ∃ t, ({ input_file := some "-", lap := some "zz",
              sample_rate := some 2000000 } : Options).lap = some t) ∧
    btrxInit { input_file := some "-", lap := some "zz", uap := some "qq", dump := true,
               sample_rate := some 2000000 } { } =
      btrxInit { input_file := some "-", dump := true, sample_rate := some 2000000 } { } := by
  constructor
  · exact C10_dump_skips_hex_parsing.1 _ { } "zz" (by with_unfolding_all rfl)
  · exact C10_dump_skips_hex_parsing.2
      { input_file := some "-", dump := true, sample_rate := some 2000000 } { }
      (some "zz") (some "qq") rfl

/-- On the accepting path the truncation in the decimation-rate computation
is a floor, and the accepted rate is at least 2 Msps. -/
lemma resolveParams_decimation_floor {opts : Options} {cfg : ResolvedConfig}
    (h : resolveParams opts = .ok cfg) :
    cfg.decimation_rate = ⌊resolveSampleRate opts / 2000000⌋ ∧
    (2000000 : ℚ) ≤ resolveSampleRate opts := by
  obtain ⟨hge, _, hd, _⟩ := resolveParams_ok_inv h
  rw [min_sample_rate_eq] at hge hd
  have hr : (2000000 : ℚ) ≤ resolveSampleRate opts := not_lt.mp hge
  refine ⟨?_, hr⟩
  rw [hd]
  exact pyTrunc_of_nonneg (div_nonneg (le_trans (by norm_num) hr) (by norm_num))

/-- C4: for every accepted configuration the channel-fan-out decimation
rate equals the floor of the resolved sample rate divided by 2,000,000. -/
theorem C4_decimation_rate :
    ∀ (opts : Options) (cfg : ResolvedConfig), resolveParams opts = .ok cfg →
      cfg.decimation_rate = ⌊resolveSampleRate opts / 2000000⌋ := by
  intro opts cfg h
  exact (resolveParams_decimation_floor h).1

/-- Witness for C4: a 2 Msps rate gives decimation rate 1 and a 5 Msps
rate gives decimation rate 2. -/
theorem C4_witness :
    (∃ cfg, resolveParams { sample_rate := some 2000000 } = .ok cfg ∧
      cfg.decimation_rate = 1) ∧
    (∃ cfg, resolveParams { sample_rate := some 5000000 } = .ok cfg ∧
      cfg.decimation_rate = 2) := by
  have h1 : resolveParams { sample_rate := some 2000000 } =
      .ok { sampleRate := 2000000, decimation_rate := 1, samples_per_symbol := 2 } := by
    with_unfolding_all rfl
  have h2 : resolveParams { sample_rate := some 5000000 } =
      .ok { sampleRate := 5000000, decimation_rate := 2, samples_per_symbol := 5 / 2 } := by
    with_unfolding_all rfl
  refine ⟨⟨_, h1, ?_⟩, ⟨_, h2, ?_⟩⟩
  · rw [C4_decimation_rate _ _ h1]
    with_unfolding_all rfl
  · rw [C4_decimation_rate _ _ h2]
    with_unfolding_all rfl

/-- C5: for every accepted configuration the samples-per-symbol value (the
one handed unchanged to every channel branch) equals the sample rate
divided by the decimation rate, divided by 1,000,000 — both in terms of the
stored fields and in terms of the resolved inputs. -/
theorem C5_samples_per_symbol :
    ∀ (opts : Options) (cfg : ResolvedConfig), resolveParams opts = .ok cfg →
      cfg.samples_per_symbol = (cfg.sampleRate / (cfg.decimation_rate : ℚ)) / 1000000 ∧
      cfg.samples_per_symbol =
        (resolveSampleRate opts / ((⌊resolveSampleRate opts / 2000000⌋ : ℤ) : ℚ)) / 1000000 := by
  intro opts cfg h
  obtain ⟨_, hs, _, hp⟩ := resolveParams_ok_inv h
  obtain ⟨hfloor, _⟩ := resolveParams_decimation_floor h
  constructor
  · rw [hp, hs, symbol_rate_eq]
  · rw [hp, symbol_rate_eq, hfloor]

/-- Witness for C5: at 2 Msps the samples-per-symbol value is 2, and it
satisfies both formulas of the claim. -/
theorem C5_witness :
    ∃ cfg, resolveParams { sample_rate := some 2000000 } = .ok cfg ∧
      cfg.samples_per_symbol = (cfg.sampleRate / (cfg.decimation_rate : ℚ)) / 1000000 ∧
      cfg.samples_per_symbol = 2 := by
  have h1 : resolveParams { sample_rate := some 2000000 } =
      .ok { sampleRate := 2000000, decimation_rate := 1, samples_per_symbol := 2 } := by
    with_unfolding_all rfl
  exact ⟨_, h1, (C5_samples_per_symbol _ _ h1).1, rfl⟩

/-- C6: validation success implies the ResolvedConfig invariants — the
decimation rate is at least 1 and the samples-per-symbol value at least
2. -/
theorem C6_resolved_invariants :
    ∀ (opts : Options) (cfg : ResolvedConfig), resolveParams opts = .ok cfg →
      1 ≤ cfg.decimation_rate ∧ 2 ≤ cfg.samples_per_symbol := by
  intro opts cfg h
  obtain ⟨hfloor, hge⟩ := resolveParams_decimation_floor h
  obtain ⟨_, hs, _, hp⟩ := resolveParams_ok_inv h
  have h2M : (0 : ℚ) < 2000000 := by norm_num
  have hd1 : (1 : ℤ) ≤ ⌊resolveSampleRate opts / 2000000⌋ := by
    rw [Int.le_floor]
    rw [show ((1 : ℤ) : ℚ) = 1 from rfl, le_div_iff₀ h2M]
    linarith
  refine ⟨by rw [hfloor]; exact hd1, ?_⟩
  have hdpos : (0 : ℚ) < (cfg.decimation_rate : ℚ) := by
    have h1 : (1 : ℤ) ≤ cfg.decimation_rate := by rw [hfloor]; exact hd1
    exact_mod_cast lt_of_lt_of_le zero_lt_one h1
  have hdle : ((cfg.decimation_rate : ℤ) : ℚ) ≤ resolveSampleRate opts / 2000000 := by
    rw [hfloor]
    exact Int.floor_le _
  have hmul : (cfg.decimation_rate : ℚ) * 2000000 ≤ resolveSampleRate opts :=
    (le_div_iff₀ h2M).mp hdle
  have hq : (2000000 : ℚ) ≤ resolveSampleRate opts / (cfg.decimation_rate : ℚ) := by
    rw [le_div_iff₀ hdpos]
    linarith
  rw [hp, symbol_rate_eq]
  rw [le_div_iff₀ (by norm_num : (0 : ℚ) < 1000000)]
  linarith

/-- Witness for C6: the default configuration (64 MHz / 32 = 2 Msps)
satisfies both invariants. -/
theorem C6_witness :
    ∃ cfg, resolveParams { } = .ok cfg ∧
      1 ≤ cfg.decimation_rate ∧ 2 ≤ cfg.samples_per_symbol := by
  have h : resolveParams { } =
      .ok { sampleRate := 2000000, decimation_rate := 1, samples_per_symbol := 2 } := by
    with_unfolding_all rfl
  exact ⟨_, h, C6_resolved_invariants _ _ h⟩

/-- C7: when every entry of the comma-separated channel list parses (and
destination selection succeeds), the loop connects exactly one branch per
entry, in list order, each at the truncated parsed frequency of its entry;
duplicates are kept. -/
theorem C7_channel_fanout :
    ∀ (opts : Options) (cfg : ResolvedConfig),
      (∀ e ∈ opts.ddc.splitOn ",", (str_to_num e).isSome = true) →
      (∀ f : Int, ∃ m, selectDst opts f = .ok m) →
      ∃ bs, (buildLoop opts cfg (opts.ddc.splitOn ",")).2 = .ok bs ∧
        bs.map Branch.ddc_freq =
          (opts.ddc.splitOn ",").map (fun e => pyTrunc ((str_to_num e).getD 0)) ∧
        bs.length = (opts.ddc.splitOn ",").length := by
  intro opts cfg hall hm
  obtain ⟨bs, h1, h2⟩ := buildLoop_ok_of_parses opts cfg hm (opts.ddc.splitOn ",") hall
  refine ⟨bs, by rw [h1], h2, ?_⟩
  have h3 := congrArg List.length h2
  simpa using h3

/-- Witness for C7: the list "0,1000000,2000000" produces exactly 3
branches with offsets 0, 1,000,000, 2,000,000 in that order. -/
theorem C7_witness :
    ∃ bs, (buildLoop { ddc := "0,1000000,2000000", dump := true }
        { sampleRate := 2000000, decimation_rate := 1, samples_per_symbol := 2 }
        (({ ddc := "0,1000000,2000000", dump := true } : Options).ddc.splitOn ",")).2 =
        .ok bs ∧
      bs.map Branch.ddc_freq = [0, 1000000, 2000000] ∧
      bs.length = 3 := by
  obtain ⟨bs, h1, h2, h3⟩ := C7_channel_fanout
    { ddc := "0,1000000,2000000", dump := true }
    { sampleRate := 2000000, decimation_rate := 1, samples_per_symbol := 2 }
    (by with_unfolding_all decide)
    (fun f => ⟨.dump, selectDst_of_dump rfl f⟩)
  refine ⟨bs, h1, ?_, ?_⟩
  · rw [h2]
    with_unfolding_all rfl
  · rw [h3]
    with_unfolding_all rfl

/-- C8 counterexample: with a file source, a valid explicit rate and the
malformed channel list "bogus", the run does fail with the malformed-entry
configuration error, but the source adapter has already been created when
it does — refuting the claim that every configuration error precedes
source creation. -/
theorem C8_counterexample :
    btrxInit { ddc := "bogus", input_file := some "capture.dat",
               sample_rate := some 2000000 } { } =
      ([Event.srcCreated (SourceKind.fileSrc "capture.dat")],
        .error (.invalidEngValue "bogus")) ∧
    ¬ (∀ k, Event.srcCreated k ∉
        (btrxInit { ddc := "bogus", input_file := some "capture.dat",
                    sample_rate := some 2000000 } { }).1) := by
  have h : btrxInit { ddc := "bogus", input_file := some "capture.dat",
                      sample_rate := some 2000000 } { } =
      ([Event.srcCreated (SourceKind.fileSrc "capture.dat")],
        .error (.invalidEngValue "bogus")) := by
    with_unfolding_all rfl
  refine ⟨h, fun hnone => hnone (SourceKind.fileSrc "capture.dat") ?_⟩
  rw [h]
  simp

/-- C8 as amended: whenever the run fails with a malformed frequency-list
entry, the construction trace begins with a source-creation event — the
malformed list is detected only during branch construction, after the
source adapter exists. -/
theorem C8_error_ordering :
    ∀ (opts : Options) (env : HwEnv) (e : String),
      (btrxInit opts env).2 = .error (.invalidEngValue e) →
      ∃ k rest, (btrxInit opts env).1 = Event.srcCreated k :: rest := by
  intro opts env e h
  rcases btrxInit_run_cases opts env with ⟨c, r, hc⟩ | hc | hc | ⟨k, cfg, _, hc⟩
  · rw [hc] at h
    exact absurd h (by simp)
  · rw [hc] at h
    exact absurd h (by simp)
  · rw [hc] at h
    exact absurd h (by simp)
  · exact ⟨k, _, by rw [hc]⟩

/-- Witness for C8's amended statement at the counterexample input. -/
theorem C8_witness :
    ∃ k rest, (btrxInit { ddc := "bogus", input_file := some "capture.dat",
                           sample_rate := some 2000000 } { }).1 = Event.srcCreated k :: rest :=
  C8_error_ordering _ { } "bogus" (by with_unfolding_all rfl)

/-- C9 counterexample: a USRP2 hardware configuration whose derived sample
rate fails validation (decimation 64 gives 100 MHz / 64 = 1.5625 Msps)
aborts with the low-sample-rate ValueError, not with the not-implemented
error — refuting the claim for arbitrary USRP2 hardware configurations. -/
theorem C9_counterexample :
    ({ decim := 64, usrp2 := true } : Options).input_file = none ∧
    ({ decim := 64, usrp2 := true } : Options).usrp2 = true ∧
    btrxInit { decim := 64, usrp2 := true } { } =
      ([], .error (.sampleRateLow 1562500 2000000)) ∧
    (btrxInit { decim := 64, usrp2 := true } { }).2 ≠ .error .notImplemented := by
  have h : btrxInit { decim := 64, usrp2 := true } { } =
      ([], .error (.sampleRateLow 1562500 2000000)) := by
    with_unfolding_all rfl
  refine ⟨rfl, rfl, h, ?_⟩
  rw [h]
  simp

/-- C9 as amended: for every hardware-source configuration with the USRP2
flag whose resolved sample rate passes the minimum-rate validation, the run
fails immediately with the distinct not-implemented error and an empty
construction trace (before any source is constructed or tuned). -/
theorem C9_usrp2_not_implemented :
    ∀ (opts : Options) (env : HwEnv),
      opts.input_file = none → opts.usrp2 = true →
      ¬ resolveSampleRate opts < min_sample_rate →
      btrxInit opts env = ([], .error .notImplemented) := by
  intro opts env hif hu h
  have hrp := resolveParams_of_not_lt h
  simp [btrxInit, hrp, hif, hu]

/-- Witness for C9's amended statement: the default USRP2 configuration
(100 MHz / 32 = 3.125 Msps, valid) hits the not-implemented error with an
empty trace. -/
theorem C9_witness :
    btrxInit { usrp2 := true } { } = ([], .error .notImplemented) :=
  C9_usrp2_not_implemented { usrp2 := true } { } rfl rfl (by with_unfolding_all decide)
